import Mathlib

/-!
Verification development for the EasyWalk `PinTracer` Pin tool
(`src/PinTracer/PinTracer.cpp`).

The planner walk of `InstrumentTrace`, the buffer-flush helper
`CheckBufferAndStore`, the testcase hooks `TestcaseStart` / `TestcaseEnd`,
the thread-start callback `ThreadStart`, the RDRAND override configuration
from `main`, and `ChangeRandomNumber` are embedded from the source file.
The `TraceWriter` and `ImageData` classes live in `TraceWriter.h` /
`Utilities.h`, which are not part of the sources at hand; those operations
are modelled from the specification and say so in their doc comments.
-/

namespace PinTracer

/-! ### Opcode class codes

The source compares `INS_Opcode` against XED instruction-class enum
constants.  The exact numeric codes are opaque enum values; the embedding
fixes representative values that respect the orderings the source relies
on: the push family forms the range `[PUSH, PUSHFQ]`, the pop family the
range `[POP, POPFQ]`, and `LEA`, `CPUID`, `RDRAND` lie outside both
ranges. -/

def XED_ICLASS_POP : Nat := 588

def XED_ICLASS_POPFQ : Nat := 598

def XED_ICLASS_PUSH : Nat := 649

def XED_ICLASS_PUSHFQ : Nat := 657

def XED_ICLASS_LEA : Nat := 400

def XED_ICLASS_CPUID : Nat := 204

def XED_ICLASS_RDRAND : Nat := 677

/-- A single instruction, as the planner observes it through the Pin
inspection API: its address (`IARG_INST_PTR` value), the presence of a
segment prefix (`INS_SegmentPrefix`), its XED opcode class
(`INS_Opcode`), and the classification predicates used by
`InstrumentTrace`. -/
structure Ins where
  addr : Nat
  segmentPrefixed : Bool
  opc : Nat
  isCall : Bool
  isBranch : Bool
  isRet : Bool
  isMemoryRead : Bool
  hasMemoryRead2 : Bool
  isMemoryWrite : Bool
  isStandardMemop : Bool
deriving DecidableEq, Repr

/-- Instrumentation points of the Pin API. -/
inductive IPoint
  | before
  | after
  | takenBranch
deriving DecidableEq, Repr

/-- Which insertion primitive installed a probe: `INS_InsertCall`,
`INS_InsertIfCall` or `INS_InsertThenCall`. -/
inductive CallKind
  | plain
  | ifCall
  | thenCall
deriving DecidableEq, Repr

/-- Registers referenced by probe argument lists: the four tool registers
claimed in `main`, the architectural registers, and `INS_RegW(ins, 0)`
(the destination register of the instrumented instruction). -/
inductive RegId
  | nextBufferEntryReg
  | entryBufferEndReg
  | cpuIdEaxInputReg
  | cpuIdEcxInputReg
  | eax
  | ebx
  | ecx
  | edx
  | rax
  | insWriteReg0
deriving DecidableEq, Repr

/-- The `IARG_*` argument descriptors that appear in the probe
insertions of `InstrumentTrace`. -/
inductive IArg
  | context
  | instPtr
  | branchTargetAddr
  | branchTaken
  | threadId
  | memoryReadEA
  | memoryRead2EA
  | memoryWriteEA
  | boolArg (b : Bool)
  | uint32 (v : Nat)
  | uint32Reg (r : RegId)
  | regValue (r : RegId)
  | regReference (r : RegId)
  | returnRegs (r : RegId)
deriving DecidableEq, Repr

/-- The analysis functions passed as `AFUNPTR` in `InstrumentTrace`. -/
inductive PFun
  | pinSetContextReg
  | changeCpuId
  | changeRandomNumber
  | checkNextTraceEntryPointerValid
  | insertBranchEntry
  | checkBufferFull
  | checkBufferAndStore
  | insertRetBranchEntry
  | insertMemoryReadEntry
  | insertMemoryWriteEntry
deriving DecidableEq, Repr

/-- One installed probe: the address of the instrumented instruction, the
instrumentation point, the insertion primitive, the analysis function and
its argument list. -/
structure Probe where
  insAddr : Nat
  point : IPoint
  ckind : CallKind
  fn : PFun
  args : List IArg
deriving DecidableEq, Repr

/-- The flush-check pair installed after every trace-entry write:
`INS_InsertIfCall(… CheckBufferFull …)` followed by
`INS_InsertThenCall(… CheckBufferAndStore …)`. -/
def flushCheck (pt : IPoint) (a : Nat) : List Probe :=
  [⟨a, pt, .ifCall, .checkBufferFull,
      [.regValue .nextBufferEntryReg, .regValue .entryBufferEndReg]⟩,
   ⟨a, pt, .thenCall, .checkBufferAndStore,
      [.regValue .nextBufferEntryReg, .regValue .entryBufferEndReg,
       .threadId, .returnRegs .nextBufferEntryReg]⟩]

/-- The null-pointer guard installed before every trace-entry write:
`INS_InsertIfCall(… CheckNextTraceEntryPointerValid …)`. -/
def validCheck (pt : IPoint) (a : Nat) : Probe :=
  ⟨a, pt, .ifCall, .checkNextTraceEntryPointerValid,
    [.regValue .nextBufferEntryReg]⟩

/-- Probes installed for a `CPUID` instruction: save `EAX` and `ECX` into
the reserved tool registers before, rewrite the outputs after. -/
def cpuidProbes (a : Nat) : List Probe :=
  [⟨a, .before, .plain, .pinSetContextReg,
      [.context, .uint32Reg .cpuIdEaxInputReg, .regValue .eax]⟩,
   ⟨a, .before, .plain, .pinSetContextReg,
      [.context, .uint32Reg .cpuIdEcxInputReg, .regValue .ecx]⟩,
   ⟨a, .after, .plain, .changeCpuId,
      [.regValue .cpuIdEaxInputReg, .regValue .cpuIdEcxInputReg,
       .regReference .eax, .regReference .ebx, .regReference .ecx,
       .regReference .edx]⟩]

/-- Probe installed for a `RDRAND` instruction when the fixed-random
override is active: overwrite the destination register after execution. -/
def rdrandProbes (a : Nat) : List Probe :=
  [⟨a, .after, .plain, .changeRandomNumber, [.regReference .insWriteReg0]⟩]

/-- Probes installed for a call instruction: branch entry with constant
`taken = 1` (`IARG_BOOL, 1`) and `isCall = 1` (`IARG_UINT32, 1`) at
`IPOINT_BEFORE`, followed by the flush check. -/
def callProbes (a : Nat) : List Probe :=
  [validCheck .before a,
   ⟨a, .before, .thenCall, .insertBranchEntry,
      [.regValue .nextBufferEntryReg, .instPtr, .branchTargetAddr,
       .boolArg true, .uint32 1, .returnRegs .nextBufferEntryReg]⟩]
  ++ flushCheck .before a

/-- Probes installed for a non-call branch instruction: branch entry with
runtime `IARG_BRANCH_TAKEN` and `isCall = 0` (`IARG_UINT32, 0`) at
`IPOINT_BEFORE`, followed by the flush check. -/
def branchProbes (a : Nat) : List Probe :=
  [validCheck .before a,
   ⟨a, .before, .thenCall, .insertBranchEntry,
      [.regValue .nextBufferEntryReg, .instPtr, .branchTargetAddr,
       .branchTaken, .uint32 0, .returnRegs .nextBufferEntryReg]⟩]
  ++ flushCheck .before a

/-- Probes installed for a `ret` instruction, all at
`IPOINT_TAKEN_BRANCH`: the ret-branch entry takes `IARG_CONTEXT`, then
the flush check follows. -/
def retProbes (a : Nat) : List Probe :=
  [validCheck .takenBranch a,
   ⟨a, .takenBranch, .thenCall, .insertRetBranchEntry,
      [.regValue .nextBufferEntryReg, .instPtr, .context,
       .returnRegs .nextBufferEntryReg]⟩]
  ++ flushCheck .takenBranch a

/-- The memory-read trace-entry probe (`IARG_MEMORYREAD_EA`). -/
def memoryReadInsertProbe (a : Nat) : Probe :=
  ⟨a, .before, .thenCall, .insertMemoryReadEntry,
    [.regValue .nextBufferEntryReg, .instPtr, .memoryReadEA,
     .returnRegs .nextBufferEntryReg]⟩

/-- The second memory-read trace-entry probe (`IARG_MEMORYREAD2_EA`). -/
def memoryRead2InsertProbe (a : Nat) : Probe :=
  ⟨a, .before, .thenCall, .insertMemoryReadEntry,
    [.regValue .nextBufferEntryReg, .instPtr, .memoryRead2EA,
     .returnRegs .nextBufferEntryReg]⟩

/-- The memory-write trace-entry probe (`IARG_MEMORYWRITE_EA`). -/
def memoryWriteInsertProbe (a : Nat) : Probe :=
  ⟨a, .before, .thenCall, .insertMemoryWriteEntry,
    [.regValue .nextBufferEntryReg, .instPtr, .memoryWriteEA,
     .returnRegs .nextBufferEntryReg]⟩

/-- Probes installed for the first standard memory-read operand. -/
def memoryReadProbes (a : Nat) : List Probe :=
  [validCheck .before a, memoryReadInsertProbe a] ++ flushCheck .before a

/-- Probes installed for the second standard memory-read operand. -/
def memoryRead2Probes (a : Nat) : List Probe :=
  [validCheck .before a, memoryRead2InsertProbe a] ++ flushCheck .before a

/-- Probes installed for a standard memory-write operand. -/
def memoryWriteProbes (a : Nat) : List Probe :=
  [validCheck .before a, memoryWriteInsertProbe a] ++ flushCheck .before a

/-- The per-instruction body of the planner loop in `InstrumentTrace`
(`src/PinTracer/PinTracer.cpp`, lines 164–368): the filter chain
(segment prefix, push range, pop range, `LEA`), the `CPUID` and `RDRAND`
rewrites, the call / branch / ret control-flow probes (each `continue`s,
except `ret` which falls through), and — only for interesting images —
the standard memory-operand probes. -/
def instrumentInstruction (useFixedRandomNumber interesting : Bool) (ins : Ins) :
    List Probe :=
  if ins.segmentPrefixed then []
  else if XED_ICLASS_PUSH ≤ ins.opc ∧ ins.opc ≤ XED_ICLASS_PUSHFQ then []
  else if XED_ICLASS_POP ≤ ins.opc ∧ ins.opc ≤ XED_ICLASS_POPFQ then []
  else if ins.opc = XED_ICLASS_LEA then []
  else if ins.opc = XED_ICLASS_CPUID then cpuidProbes ins.addr
  else if ins.opc = XED_ICLASS_RDRAND ∧ useFixedRandomNumber then rdrandProbes ins.addr
  else if ins.isCall then callProbes ins.addr
  else if ins.isBranch then branchProbes ins.addr
  else
    (if ins.isRet then retProbes ins.addr else [])
    ++ (if interesting then
          (if ins.isMemoryRead && ins.isStandardMemop then
            memoryReadProbes ins.addr else [])
          ++ (if ins.hasMemoryRead2 && ins.isStandardMemop then
                memoryRead2Probes ins.addr else [])
          ++ (if ins.isMemoryWrite && ins.isStandardMemop then
                memoryWriteProbes ins.addr else [])
        else [])

/-- A basic block as handed to `InstrumentTrace`: its address
(`BBL_Address`) and its instruction list in program order. -/
structure BBL where
  addr : Nat
  inss : List Ins
deriving DecidableEq, Repr

/-- A registered image as recorded by `InstrumentImage`: the interest
flag, name and `[low, high]` address range. -/
structure ImageData where
  interesting : Bool
  name : String
  low : Nat
  high : Nat
deriving DecidableEq, Repr

/-- Modelled from the spec: `ImageData::ContainsBasicBlock`
(`Utilities.h`, not among the sources at hand).  Per spec §4.1, an image
owns a basic block when the block address lies inside the
`[low, high]` range of the image. -/
def ImageData.containsBasicBlock (img : ImageData) (bbl : BBL) : Bool :=
  img.low ≤ bbl.addr && bbl.addr ≤ img.high

/-- Modelled from the spec: `ImageData::IsInteresting` (`Utilities.h`):
returns the interest flag recorded at image load. -/
def ImageData.isInteresting (img : ImageData) : Bool :=
  img.interesting

/-- The image-resolution loop at the head of the per-BBL body of
`InstrumentTrace` (lines 148–154): linear scan of `_images`, the first
image containing the block wins. -/
def resolveImage (images : List ImageData) (bbl : BBL) : Option ImageData :=
  images.find? (fun i => i.containsBasicBlock bbl)

/-- The per-BBL body of `InstrumentTrace` (lines 144–368): resolve the
owning image; on failure log one stderr line and install nothing; on
success instrument every instruction with the interest flag of the image.
Returns the emitted stderr lines and the installed probes. -/
def instrumentBasicBlock (useFixedRandomNumber : Bool) (images : List ImageData)
    (bbl : BBL) : List String × List Probe :=
  match resolveImage images bbl with
  | none =>
      (["Error: Cannot resolve image of basic block " ++ toString bbl.addr], [])
  | some img =>
      ([], (bbl.inss.map (instrumentInstruction useFixedRandomNumber
              img.isInteresting)).flatten)

/-- Function `InstrumentTrace`, over the list of basic blocks of one trace:
concatenates the stderr output and installed probes of the per-BBL
bodies in order. -/
def InstrumentTrace (useFixedRandomNumber : Bool) (images : List ImageData) :
    List BBL → List String × List Probe
  | [] => ([], [])
  | bbl :: rest =>
      let r1 := instrumentBasicBlock useFixedRandomNumber images bbl
      let r2 := InstrumentTrace useFixedRandomNumber images rest
      (r1.1 ++ r2.1, r1.2 ++ r2.2)

/-! ### Trace entries and the trace writer

`TraceEntry` and the `TraceWriter` class are declared in `TraceWriter.h`,
which is not among the sources at hand; they are modelled from the
specification (§3, §4.2).  Buffer pointers are modelled as slot indices:
`begin` is index 0, the end pointer is the slot count; a `NULL` pointer
is `Option.none`. -/

/-- Modelled from the spec: the tagged-union trace entry of §3. -/
inductive TraceEntry
  | memoryRead (ip ea : Nat)
  | memoryWrite (ip ea : Nat)
  | branch (source target : Nat) (taken isCall : Bool)
  | ret (source target : Nat)
  | allocSize (size : Nat)
  | allocReturn (addr : Nat)
  | freeAddress (addr : Nat)
  | stackPointer (value : Nat)
  | testcaseMarker (isStart : Bool) (id : Int)
deriving DecidableEq, Repr

/-- Modelled from the spec: the per-thread `TraceWriter` (§3, §4.2).
`slots` is the fixed buffer (a `none` slot has never been written since
the writer was created), `currentFileBytes` the contents flushed to the
currently open output file, `closedFiles` the previously closed output
files with their final contents, `pathStem` the file name stem passed at
construction. -/
structure TraceWriter where
  pathStem : String
  slots : List (Option TraceEntry)
  currentFileBytes : List (Option TraceEntry)
  currentFileName : String
  testcaseId : Option Int
  closedFiles : List (String × List (Option TraceEntry))
deriving DecidableEq, Repr

/-- Modelled from the spec: `TraceWriter::Begin` — pointer to slot 0. -/
def TraceWriter.begin (_tw : TraceWriter) : Nat := 0

/-- Modelled from the spec: `TraceWriter::End` — pointer one past the
last slot. -/
def TraceWriter.bufferEnd (tw : TraceWriter) : Nat := tw.slots.length

/-- Modelled from the spec: `TraceWriter::CheckBufferFull(next, end)` —
`next ≥ end − K` with `K = 2` (§4.2), stated without natural-number
truncation as `end ≤ next + 2`. -/
def TraceWriter.checkBufferFull (next endp : Nat) : Bool :=
  endp ≤ next + 2

/-- Modelled from the spec: `TraceWriter::WriteBufferToFile(last)` —
appends the byte range `[begin, last)` of the buffer to the current
output file (§4.2).  The "resets to begin" half of the spec sentence is
realised at the call sites, which place `Begin()` back into the
next-entry register. -/
def TraceWriter.writeBufferToFile (tw : TraceWriter) (last : Nat) : TraceWriter :=
  { tw with currentFileBytes := tw.currentFileBytes ++ tw.slots.take last }

/-- Modelled from the spec: `TraceWriter::TestcaseStart(id, next)` —
flush the current buffer if nonempty, close the current output file,
open `<stem>_t<id>.trace`, record the id (§4.2). -/
def TraceWriter.testcaseStart (tw : TraceWriter) (id : Int) (next : Nat) :
    TraceWriter :=
  let tw1 := if next ≠ tw.begin then tw.writeBufferToFile next else tw
  { tw1 with
      closedFiles := tw1.closedFiles ++ [(tw1.currentFileName, tw1.currentFileBytes)]
      currentFileBytes := []
      currentFileName := tw1.pathStem ++ "_t" ++ toString id ++ ".trace"
      testcaseId := some id }

/-- Modelled from the spec: `TraceWriter::TestcaseEnd(next)` — flush,
close the file, record "no active testcase" (§4.2). -/
def TraceWriter.testcaseEnd (tw : TraceWriter) (next : Nat) : TraceWriter :=
  let tw1 := if next ≠ tw.begin then tw.writeBufferToFile next else tw
  { tw1 with
      closedFiles := tw1.closedFiles ++ [(tw1.currentFileName, tw1.currentFileBytes)]
      currentFileBytes := []
      testcaseId := none }

/-- A thread context, reduced to what the modelled probes read from it:
the return target of a `ret` that Pin has just executed. -/
structure ThreadContext where
  returnTarget : Nat
deriving DecidableEq, Repr

/-- Modelled from the spec: `TraceWriter::InsertRetBranchEntry`
(`TraceWriter.h`, not among the sources at hand) — writes a `Ret` entry
whose source is the instruction pointer and whose target is the return
target read from the passed thread context, then bumps the pointer by
one (§3, §4.4 step 8). -/
def InsertRetBranchEntry (tw : TraceWriter) (next : Nat) (sourceIp : Nat)
    (ctxt : ThreadContext) : TraceWriter × Nat :=
  ({ tw with slots := tw.slots.set next (some (.ret sourceIp ctxt.returnTarget)) },
   next + 1)

/-- Function `CheckBufferAndStore` (`PinTracer.cpp`, lines 559–574): ignore
non-main threads and null pointers; if the buffer is full, write it out
via `WriteBufferToFile(entryBufferEnd)` and return `Begin()`; otherwise
return the pointer unchanged. -/
def CheckBufferAndStore (tw : TraceWriter) (nextEntry entryBufferEnd : Option Nat)
    (tid : Nat) : TraceWriter × Option Nat :=
  if tid ≠ 0 ∨ nextEntry = none ∨ entryBufferEnd = none then
    (tw, nextEntry)
  else if TraceWriter.checkBufferFull (nextEntry.getD 0) (entryBufferEnd.getD 0) then
    let tw2 := tw.writeBufferToFile (entryBufferEnd.getD 0)
    (tw2, some tw2.begin)
  else
    (tw, nextEntry)

/-- Function `TestcaseStart` (`PinTracer.cpp`, lines 577–583): delegate to the
trace writer and return `Begin()`; the return value is placed back into
the next-entry register by the `IARG_RETURN_REGS, _nextBufferEntryReg`
of the hook installed in `InstrumentImage` (lines 440–445). -/
def TestcaseStart (tw : TraceWriter) (newTestcaseId : Int) (_tid : Nat)
    (nextEntry : Nat) : TraceWriter × Nat :=
  let tw2 := tw.testcaseStart newTestcaseId nextEntry
  (tw2, tw2.begin)

/-- Function `TestcaseEnd` (`PinTracer.cpp`, lines 586–592): delegate to the
trace writer and return `Begin()`. -/
def TestcaseEnd (tw : TraceWriter) (nextEntry : Nat) (_tid : Nat) :
    TraceWriter × Nat :=
  let tw2 := tw.testcaseEnd nextEntry
  (tw2, tw2.begin)

/-- The observable effect of the `ThreadStart` callback: stderr output,
the values written into the two buffer tool registers, and whether a
`TraceWriter` was created and stored in TLS. -/
structure ThreadStartEffect where
  stderrLines : List String
  nextBufferEntryReg : Option Nat
  entryBufferEndReg : Option Nat
  traceWriterCreated : Bool
deriving DecidableEq, Repr

/-- Function `ThreadStart` (`PinTracer.cpp`, lines 373–395): the main thread
(tid 0) gets a fresh writer and `Begin()` / `End()` in the registers;
any other thread gets one stderr line and null registers.
`bufferSize` is the slot count of the writer, so `Begin()` is index 0 and
`End()` is index `bufferSize`. -/
def ThreadStart (tid : Nat) (bufferSize : Nat) : ThreadStartEffect :=
  if tid = 0 then
    { stderrLines := []
      nextBufferEntryReg := some 0
      entryBufferEndReg := some bufferSize
      traceWriterCreated := true }
  else
    { stderrLines := ["Ignoring thread #" ++ toString tid]
      nextBufferEntryReg := none
      entryBufferEndReg := none
      traceWriterCreated := false }

/-- Function `CheckNextTraceEntryPointerValid` (`PinTracer.cpp`, lines 603–606):
returns the pointer reinterpreted as an integer; Pin executes the paired
then-probe iff the result is nonzero.  A live buffer pointer is a
non-null address, so the predicate holds exactly for non-null pointers. -/
def CheckNextTraceEntryPointerValid (nextEntry : Option Nat) : Bool :=
  nextEntry.isSome

/-- The RDRAND override configuration established in `main`. -/
structure RdrandConfig where
  useFixedRandomNumber : Bool
  fixedRandomNumber : Nat
deriving DecidableEq, Repr

/-- The `-r` handling in `main` (`PinTracer.cpp`, lines 107–113): the
override is enabled, and the value recorded, exactly when the knob value
differs from the sentinel `0xBADBADBADBADBAD`; otherwise the globals
keep their initial values `false` / `0`. -/
def initFixedRandomNumbers (knobValue : Nat) : RdrandConfig :=
  if knobValue ≠ 0xBADBADBADBADBAD then
    { useFixedRandomNumber := true, fixedRandomNumber := knobValue }
  else
    { useFixedRandomNumber := false, fixedRandomNumber := 0 }

/-- Function `ChangeRandomNumber` (`PinTracer.cpp`, lines 609–612): overwrites
the destination register of the `RDRAND` instruction with the fixed
value, regardless of what the register held before. -/
def ChangeRandomNumber (fixedRandomNumber : Nat) (_outputReg : Nat) : Nat :=
  fixedRandomNumber

/-! ### Witness inputs -/

/-- A segment-prefixed call instruction that also writes memory, inside an
interesting image: every filter-relevant flag set, used to witness that the
skip filters dominate every other classification. -/
def insSegCall : Ins :=
  { addr := 4096, segmentPrefixed := true, opc := 700, isCall := true,
    isBranch := false, isRet := false, isMemoryRead := true,
    hasMemoryRead2 := false, isMemoryWrite := true, isStandardMemop := true }

/-- A plain call instruction. -/
def insCall0 : Ins :=
  { addr := 4096, segmentPrefixed := false, opc := 2, isCall := true,
    isBranch := false, isRet := false, isMemoryRead := false,
    hasMemoryRead2 := false, isMemoryWrite := false, isStandardMemop := false }

/-- A `ret` instruction with a standard memory-read operand (the stack pop
of the return address). -/
def insRet0 : Ins :=
  { addr := 4097, segmentPrefixed := false, opc := 3, isCall := false,
    isBranch := false, isRet := true, isMemoryRead := true,
    hasMemoryRead2 := false, isMemoryWrite := false, isStandardMemop := true }

/-! ### Theorems -/

/-- **C3.** For every call instruction that survives filter steps 1–5, in
every attributable image (whatever its interest flag), the planner installs
exactly the call sequence: the null-pointer if-probe, then the Branch-entry
probe at `IPOINT_BEFORE` with the runtime branch-target query
(`IARG_BRANCH_TARGET_ADDR`), constant `taken = 1` and `isCall = 1`,
followed by the buffer-full flush check; and for every non-call, non-ret
branch instruction, exactly the branch sequence with the run-time
`IARG_BRANCH_TAKEN` flag and `isCall = 0` at `IPOINT_BEFORE`, followed by
the flush check. -/
theorem C3_call_and_branch_probes (u i : Bool) (ins : Ins)
    (h1 : ins.segmentPrefixed = false)
    (h2 : ¬(XED_ICLASS_PUSH ≤ ins.opc ∧ ins.opc ≤ XED_ICLASS_PUSHFQ))
    (h3 : ¬(XED_ICLASS_POP ≤ ins.opc ∧ ins.opc ≤ XED_ICLASS_POPFQ))
    (h4 : ins.opc ≠ XED_ICLASS_LEA)
    (h5 : ins.opc ≠ XED_ICLASS_CPUID)
    (h6 : ¬(ins.opc = XED_ICLASS_RDRAND ∧ u = true)) :
    (ins.isCall = true →
      instrumentInstruction u i ins =
        [⟨ins.addr, .before, .ifCall, .checkNextTraceEntryPointerValid,
            [.regValue .nextBufferEntryReg]⟩,
         ⟨ins.addr, .before, .thenCall, .insertBranchEntry,
            [.regValue .nextBufferEntryReg, .instPtr, .branchTargetAddr,
             .boolArg true, .uint32 1, .returnRegs .nextBufferEntryReg]⟩,
         ⟨ins.addr, .before, .ifCall, .checkBufferFull,
            [.regValue .nextBufferEntryReg, .regValue .entryBufferEndReg]⟩,
         ⟨ins.addr, .before, .thenCall, .checkBufferAndStore,
            [.regValue .nextBufferEntryReg, .regValue .entryBufferEndReg,
             .threadId, .returnRegs .nextBufferEntryReg]⟩]) ∧
    (ins.isCall = false → ins.isRet = false → ins.isBranch = true →
      instrumentInstruction u i ins =
        [⟨ins.addr, .before, .ifCall, .checkNextTraceEntryPointerValid,
            [.regValue .nextBufferEntryReg]⟩,
         ⟨ins.addr, .before, .thenCall, .insertBranchEntry,
            [.regValue .nextBufferEntryReg, .instPtr, .branchTargetAddr,
             .branchTaken, .uint32 0, .returnRegs .nextBufferEntryReg]⟩,
         ⟨ins.addr, .before, .ifCall, .checkBufferFull,
            [.regValue .nextBufferEntryReg, .regValue .entryBufferEndReg]⟩,
         ⟨ins.addr, .before, .thenCall, .checkBufferAndStore,
            [.regValue .nextBufferEntryReg, .regValue .entryBufferEndReg,
             .threadId, .returnRegs .nextBufferEntryReg]⟩]) := by
  constructor
  · intro hc
    simp [instrumentInstruction, h1, h2, h3, h4, h5, h6, hc, callProbes,
      validCheck, flushCheck]
  · intro hc _hr hb
    simp [instrumentInstruction, h1, h2, h3, h4, h5, h6, hc, hb, branchProbes,
      validCheck, flushCheck]

/-- Witness for C3: the call sequence is installed for a concrete call
instruction in an uninteresting image. -/
theorem C3_witness :
    instrumentInstruction false false insCall0 = callProbes insCall0.addr :=
  (C3_call_and_branch_probes false false insCall0 (by decide) (by decide)
    (by decide) (by decide) (by decide) (by decide)).1 rfl

/-- **C4.** For every `ret` instruction that survives the earlier steps, in
every attributable image, the planner installs the ret sequence at
`IPOINT_TAKEN_BRANCH` (not `IPOINT_BEFORE` or `IPOINT_AFTER`): the
null-pointer if-probe, the Ret-entry probe taking `IARG_CONTEXT` (the
modelled `InsertRetBranchEntry` reads the return target from that thread
context), then the buffer-full flush check at the same point. -/
theorem C4_ret_probe_at_taken_branch (u i : Bool) (ins : Ins)
    (h1 : ins.segmentPrefixed = false)
    (h2 : ¬(XED_ICLASS_PUSH ≤ ins.opc ∧ ins.opc ≤ XED_ICLASS_PUSHFQ))
    (h3 : ¬(XED_ICLASS_POP ≤ ins.opc ∧ ins.opc ≤ XED_ICLASS_POPFQ))
    (h4 : ins.opc ≠ XED_ICLASS_LEA)
    (h5 : ins.opc ≠ XED_ICLASS_CPUID)
    (h6 : ¬(ins.opc = XED_ICLASS_RDRAND ∧ u = true))
    (hc : ins.isCall = false) (hb : ins.isBranch = false)
    (hr : ins.isRet = true) :
    (∃ rest, instrumentInstruction u i ins =
      [⟨ins.addr, .takenBranch, .ifCall, .checkNextTraceEntryPointerValid,
          [.regValue .nextBufferEntryReg]⟩,
       ⟨ins.addr, .takenBranch, .thenCall, .insertRetBranchEntry,
          [.regValue .nextBufferEntryReg, .instPtr, .context,
           .returnRegs .nextBufferEntryReg]⟩,
       ⟨ins.addr, .takenBranch, .ifCall, .checkBufferFull,
          [.regValue .nextBufferEntryReg, .regValue .entryBufferEndReg]⟩,
       ⟨ins.addr, .takenBranch, .thenCall, .checkBufferAndStore,
          [.regValue .nextBufferEntryReg, .regValue .entryBufferEndReg,
           .threadId, .returnRegs .nextBufferEntryReg]⟩] ++ rest) ∧
    (∀ p ∈ retProbes ins.addr, p.point = IPoint.takenBranch) ∧
    (∀ tw next ip c, (InsertRetBranchEntry tw next ip c).1.slots =
        tw.slots.set next (some (.ret ip c.returnTarget))) := by
  refine ⟨?_, ?_, ?_⟩
  · refine ⟨(if i then
        (if ins.isMemoryRead && ins.isStandardMemop then
          memoryReadProbes ins.addr else [])
        ++ (if ins.hasMemoryRead2 && ins.isStandardMemop then
              memoryRead2Probes ins.addr else [])
        ++ (if ins.isMemoryWrite && ins.isStandardMemop then
              memoryWriteProbes ins.addr else [])
      else []), ?_⟩
    simp [instrumentInstruction, h1, h2, h3, h4, h5, h6, hc, hb, hr,
      retProbes, validCheck, flushCheck]
  · simp [retProbes, validCheck, flushCheck]
  · intro tw next ip c
    rfl

/-- Witness for C4: the ret sequence is installed, at
`IPOINT_TAKEN_BRANCH`, for a concrete `ret` instruction. -/
theorem C4_witness :
    (∃ rest, instrumentInstruction false true insRet0 =
      retProbes insRet0.addr ++ rest) ∧
    (∀ p ∈ retProbes insRet0.addr, p.point = IPoint.takenBranch) :=
  ⟨(C4_ret_probe_at_taken_branch false true insRet0 (by decide) (by decide)
      (by decide) (by decide) (by decide) (by decide) (by decide) (by decide)
      (by decide)).1,
   (C4_ret_probe_at_taken_branch false true insRet0 (by decide) (by decide)
      (by decide) (by decide) (by decide) (by decide) (by decide) (by decide)
      (by decide)).2.1⟩

/-- **C9.** Any instruction bearing a segment prefix, or whose opcode lies
in `[PUSH, PUSHFQ]` or `[POP, POPFQ]`, or which is `LEA`, receives no probe
of any kind — those filters dominate every later classification (CPUID,
RDRAND, call, branch, ret, memory), whatever the interest of the image. -/
theorem C9_skip_filters_install_nothing (u i : Bool) (ins : Ins)
    (h : ins.segmentPrefixed = true
      ∨ (XED_ICLASS_PUSH ≤ ins.opc ∧ ins.opc ≤ XED_ICLASS_PUSHFQ)
      ∨ (XED_ICLASS_POP ≤ ins.opc ∧ ins.opc ≤ XED_ICLASS_POPFQ)
      ∨ ins.opc = XED_ICLASS_LEA) :
    instrumentInstruction u i ins = [] := by
  rcases h with h | h | h | h <;> simp [instrumentInstruction, h]

/-- Witness for C9: a segment-prefixed call with a standard memory write,
in an interesting image, gets no probes at all. -/
theorem C9_witness : instrumentInstruction true true insSegCall = [] :=
  C9_skip_filters_install_nothing true true insSegCall (by decide)

/-- An uninteresting-image-reachable instruction with a standard memory
read and a standard memory write. -/
def insMemRW : Ins :=
  { addr := 8192, segmentPrefixed := false, opc := 5, isCall := false,
    isBranch := false, isRet := false, isMemoryRead := true,
    hasMemoryRead2 := false, isMemoryWrite := true, isStandardMemop := true }

/-- Tests whether a probe writes a memory-access trace entry. -/
def isMemoryAccessProbe (p : Probe) : Bool :=
  p.fn == PFun.insertMemoryReadEntry || p.fn == PFun.insertMemoryWriteEntry

/-- Helper: the CPUID rewrite block contains no memory-access probe. -/
theorem cpuidProbes_no_memory (a : Nat) :
    ∀ p ∈ cpuidProbes a, isMemoryAccessProbe p = false := by
  simp [cpuidProbes, isMemoryAccessProbe]

/-- Helper: the RDRAND rewrite block contains no memory-access probe. -/
theorem rdrandProbes_no_memory (a : Nat) :
    ∀ p ∈ rdrandProbes a, isMemoryAccessProbe p = false := by
  simp [rdrandProbes, isMemoryAccessProbe]

/-- Helper: the call block contains no memory-access probe. -/
theorem callProbes_no_memory (a : Nat) :
    ∀ p ∈ callProbes a, isMemoryAccessProbe p = false := by
  simp [callProbes, validCheck, flushCheck, isMemoryAccessProbe]

/-- Helper: the branch block contains no memory-access probe. -/
theorem branchProbes_no_memory (a : Nat) :
    ∀ p ∈ branchProbes a, isMemoryAccessProbe p = false := by
  simp [branchProbes, validCheck, flushCheck, isMemoryAccessProbe]

/-- Helper: the ret block contains no memory-access probe. -/
theorem retProbes_no_memory (a : Nat) :
    ∀ p ∈ retProbes a, isMemoryAccessProbe p = false := by
  simp [retProbes, validCheck, flushCheck, isMemoryAccessProbe]

set_option maxHeartbeats 2000000 in
/-- Helper: when the interest flag is `false`, the per-instruction walk
never installs a memory-access trace probe. -/
theorem uninteresting_no_memory_probe (u : Bool) (ins : Ins) :
    ∀ p ∈ instrumentInstruction u false ins, isMemoryAccessProbe p = false := by
  intro p hp
  unfold instrumentInstruction at hp
  split_ifs at hp <;>
    first
      | exact absurd hp (List.not_mem_nil _)
      | exact cpuidProbes_no_memory _ p hp
      | exact rdrandProbes_no_memory _ p hp
      | exact callProbes_no_memory _ p hp
      | exact branchProbes_no_memory _ p hp
      | exact retProbes_no_memory _ p (by simpa using hp)
      | simp_all

/-- **C2.** For every instruction that reaches the memory-operand stage of
the planner walk (it survives the filters and is neither CPUID, overridden
RDRAND, call nor branch), the MemoryRead probe for the first operand, the
MemoryRead probe for the second operand, and the MemoryWrite probe are each
installed — at `IPOINT_BEFORE` — if and only if the owning image is
interesting (and the corresponding standard memory operand exists); and a
basic block resolved to an uninteresting image receives no memory-access
probes at all, so no MemoryRead or MemoryWrite entry is ever emitted with
an instruction pointer inside such a block. -/
theorem C2_memory_probes_iff_interesting (u i : Bool) (ins : Ins)
    (h1 : ins.segmentPrefixed = false)
    (h2 : ¬(XED_ICLASS_PUSH ≤ ins.opc ∧ ins.opc ≤ XED_ICLASS_PUSHFQ))
    (h3 : ¬(XED_ICLASS_POP ≤ ins.opc ∧ ins.opc ≤ XED_ICLASS_POPFQ))
    (h4 : ins.opc ≠ XED_ICLASS_LEA)
    (h5 : ins.opc ≠ XED_ICLASS_CPUID)
    (h6 : ¬(ins.opc = XED_ICLASS_RDRAND ∧ u = true))
    (h7 : ins.isCall = false) (h8 : ins.isBranch = false) :
    (memoryReadInsertProbe ins.addr ∈ instrumentInstruction u i ins ↔
      i = true ∧ ins.isMemoryRead = true ∧ ins.isStandardMemop = true) ∧
    (memoryRead2InsertProbe ins.addr ∈ instrumentInstruction u i ins ↔
      i = true ∧ ins.hasMemoryRead2 = true ∧ ins.isStandardMemop = true) ∧
    (memoryWriteInsertProbe ins.addr ∈ instrumentInstruction u i ins ↔
      i = true ∧ ins.isMemoryWrite = true ∧ ins.isStandardMemop = true) ∧
    (memoryReadInsertProbe ins.addr).point = IPoint.before ∧
    (memoryRead2InsertProbe ins.addr).point = IPoint.before ∧
    (memoryWriteInsertProbe ins.addr).point = IPoint.before ∧
    (∀ images bbl img, resolveImage images bbl = some img →
      img.interesting = false →
      ∀ p ∈ (instrumentBasicBlock u images bbl).2,
        isMemoryAccessProbe p = false) := by
  have hmain : instrumentInstruction u i ins =
      (if ins.isRet then retProbes ins.addr else [])
      ++ (if i then
            (if ins.isMemoryRead && ins.isStandardMemop then
              memoryReadProbes ins.addr else [])
            ++ (if ins.hasMemoryRead2 && ins.isStandardMemop then
                  memoryRead2Probes ins.addr else [])
            ++ (if ins.isMemoryWrite && ins.isStandardMemop then
                  memoryWriteProbes ins.addr else [])
          else []) := by
    simp [instrumentInstruction, h1, h2, h3, h4, h5, h6, h7, h8]
  refine ⟨?_, ?_, ?_, rfl, rfl, rfl, ?_⟩
  · rw [hmain]
    cases i <;> cases hr : ins.isRet <;> cases m1 : ins.isMemoryRead <;>
      cases m2 : ins.hasMemoryRead2 <;> cases m3 : ins.isMemoryWrite <;>
      cases ms : ins.isStandardMemop <;>
      simp [retProbes, memoryReadProbes, memoryRead2Probes, memoryWriteProbes,
        validCheck, flushCheck, memoryReadInsertProbe, memoryRead2InsertProbe,
        memoryWriteInsertProbe]
  · rw [hmain]
    cases i <;> cases hr : ins.isRet <;> cases m1 : ins.isMemoryRead <;>
      cases m2 : ins.hasMemoryRead2 <;> cases m3 : ins.isMemoryWrite <;>
      cases ms : ins.isStandardMemop <;>
      simp [retProbes, memoryReadProbes, memoryRead2Probes, memoryWriteProbes,
        validCheck, flushCheck, memoryReadInsertProbe, memoryRead2InsertProbe,
        memoryWriteInsertProbe]
  · rw [hmain]
    cases i <;> cases hr : ins.isRet <;> cases m1 : ins.isMemoryRead <;>
      cases m2 : ins.hasMemoryRead2 <;> cases m3 : ins.isMemoryWrite <;>
      cases ms : ins.isStandardMemop <;>
      simp [retProbes, memoryReadProbes, memoryRead2Probes, memoryWriteProbes,
        validCheck, flushCheck, memoryReadInsertProbe, memoryRead2InsertProbe,
        memoryWriteInsertProbe]
  · intro images bbl img hres hint p hp
    simp only [instrumentBasicBlock, hres] at hp
    simp only [List.mem_flatten, List.mem_map] at hp
    obtain ⟨l, ⟨insx, _hx, rfl⟩, hpl⟩ := hp
    rw [show img.isInteresting = false from by
      simp [ImageData.isInteresting, hint]] at hpl
    exact uninteresting_no_memory_probe u insx p hpl

/-- Witness for C2: the first-operand MemoryRead probe is installed for a
concrete memory-reading instruction in an interesting image. -/
theorem C2_witness :
    memoryReadInsertProbe insMemRW.addr ∈ instrumentInstruction false true insMemRW :=
  ((C2_memory_probes_iff_interesting false true insMemRW (by decide) (by decide)
      (by decide) (by decide) (by decide) (by decide) (by decide)
      (by decide)).1).mpr (by decide)

/-- **C10.** Unlike the call and branch cases, which end the walk before
the memory-operand stage, the `ret` case falls through to it: a `ret` with
a standard memory-read operand, in an interesting image, gets both the Ret
sequence and the MemoryRead sequence (so it emits both a MemoryRead entry
and a Ret entry); by contrast a call or non-call branch instruction never
receives a memory-access probe. -/
theorem C10_ret_falls_through_to_memory_stage (u : Bool) (ins : Ins)
    (h1 : ins.segmentPrefixed = false)
    (h2 : ¬(XED_ICLASS_PUSH ≤ ins.opc ∧ ins.opc ≤ XED_ICLASS_PUSHFQ))
    (h3 : ¬(XED_ICLASS_POP ≤ ins.opc ∧ ins.opc ≤ XED_ICLASS_POPFQ))
    (h4 : ins.opc ≠ XED_ICLASS_LEA)
    (h5 : ins.opc ≠ XED_ICLASS_CPUID)
    (h6 : ¬(ins.opc = XED_ICLASS_RDRAND ∧ u = true))
    (hc : ins.isCall = false) (hb : ins.isBranch = false)
    (hr : ins.isRet = true)
    (hm : ins.isMemoryRead = true) (hs : ins.isStandardMemop = true) :
    (∃ rest, instrumentInstruction u true ins =
      retProbes ins.addr ++ (memoryReadProbes ins.addr ++ rest)) ∧
    memoryReadInsertProbe ins.addr ∈ instrumentInstruction u true ins ∧
    (⟨ins.addr, .takenBranch, .thenCall, .insertRetBranchEntry,
        [.regValue .nextBufferEntryReg, .instPtr, .context,
         .returnRegs .nextBufferEntryReg]⟩ : Probe)
      ∈ instrumentInstruction u true ins ∧
    (∀ ins2 : Ins, ins2.segmentPrefixed = false →
      ¬(XED_ICLASS_PUSH ≤ ins2.opc ∧ ins2.opc ≤ XED_ICLASS_PUSHFQ) →
      ¬(XED_ICLASS_POP ≤ ins2.opc ∧ ins2.opc ≤ XED_ICLASS_POPFQ) →
      ins2.opc ≠ XED_ICLASS_LEA → ins2.opc ≠ XED_ICLASS_CPUID →
      ¬(ins2.opc = XED_ICLASS_RDRAND ∧ u = true) →
      (ins2.isCall = true ∨ (ins2.isCall = false ∧ ins2.isBranch = true)) →
      ∀ p ∈ instrumentInstruction u true ins2,
        isMemoryAccessProbe p = false) := by
  refine ⟨?_, ?_, ?_, ?_⟩
  · refine ⟨(if ins.hasMemoryRead2 && ins.isStandardMemop then
        memoryRead2Probes ins.addr else [])
      ++ (if ins.isMemoryWrite && ins.isStandardMemop then
            memoryWriteProbes ins.addr else []), ?_⟩
    simp [instrumentInstruction, h1, h2, h3, h4, h5, h6, hc, hb, hr, hm, hs]
  · cases m2 : ins.hasMemoryRead2 <;> cases m3 : ins.isMemoryWrite <;>
      simp [instrumentInstruction, h1, h2, h3, h4, h5, h6, hc, hb, hr, hm, hs,
        m2, m3, retProbes, memoryReadProbes, memoryRead2Probes,
        memoryWriteProbes, validCheck, flushCheck, memoryReadInsertProbe,
        memoryRead2InsertProbe, memoryWriteInsertProbe]
  · cases m2 : ins.hasMemoryRead2 <;> cases m3 : ins.isMemoryWrite <;>
      simp [instrumentInstruction, h1, h2, h3, h4, h5, h6, hc, hb, hr, hm, hs,
        m2, m3, retProbes, memoryReadProbes, memoryRead2Probes,
        memoryWriteProbes, validCheck, flushCheck, memoryReadInsertProbe,
        memoryRead2InsertProbe, memoryWriteInsertProbe]
  · intro ins2 g1 g2 g3 g4 g5 g6 hcls p hp
    rcases hcls with hcall | ⟨hncall, hbr⟩
    · rw [show instrumentInstruction u true ins2 = callProbes ins2.addr from by
        simp [instrumentInstruction, g1, g2, g3, g4, g5, g6, hcall, callProbes,
          validCheck, flushCheck]] at hp
      exact callProbes_no_memory _ p hp
    · rw [show instrumentInstruction u true ins2 = branchProbes ins2.addr from by
        simp [instrumentInstruction, g1, g2, g3, g4, g5, g6, hncall, hbr,
          branchProbes, validCheck, flushCheck]] at hp
      exact branchProbes_no_memory _ p hp

/-- Witness for C10: a concrete `ret` with a standard memory-read operand
in an interesting image receives the MemoryRead probe. -/
theorem C10_witness :
    memoryReadInsertProbe insRet0.addr ∈ instrumentInstruction false true insRet0 :=
  (C10_ret_falls_through_to_memory_stage false insRet0 (by decide) (by decide)
    (by decide) (by decide) (by decide) (by decide) (by decide) (by decide)
    (by decide) (by decide) (by decide)).2.1

/-- A `RDRAND` instruction (opcode class outside the push/pop skip ranges
and distinct from `LEA` and `CPUID`). -/
def insRdrand : Ins :=
  { addr := 8200, segmentPrefixed := false, opc := 677, isCall := false,
    isBranch := false, isRet := false, isMemoryRead := false,
    hasMemoryRead2 := false, isMemoryWrite := false, isStandardMemop := false }

/-- **C5.** The RDRAND override is enabled iff the `-r` knob value differs
from the sentinel `0xBADBADBADBADBAD`, in which case the configured value
is recorded; when enabled, a `RDRAND` instruction that survives the skip
filters gets exactly one after-probe on its destination register, and
`ChangeRandomNumber` overwrites that register with the configured value no
matter what it held, so the destination always equals the configured value
after the instrumented instruction. -/
theorem C5_rdrand_override (v : Nat) (i : Bool) (ins : Ins) (fixed old : Nat)
    (hseg : ins.segmentPrefixed = false)
    (hopc : ins.opc = XED_ICLASS_RDRAND) :
    ((initFixedRandomNumbers v).useFixedRandomNumber = true ↔
      v ≠ 0xBADBADBADBADBAD) ∧
    (v ≠ 0xBADBADBADBADBAD → (initFixedRandomNumbers v).fixedRandomNumber = v) ∧
    instrumentInstruction true i ins =
      [⟨ins.addr, .after, .plain, .changeRandomNumber,
          [.regReference .insWriteReg0]⟩] ∧
    ChangeRandomNumber fixed old = fixed := by
  refine ⟨?_, ?_, ?_, rfl⟩
  · unfold initFixedRandomNumbers
    split_ifs with h <;> simp [h]
  · intro h
    simp [initFixedRandomNumbers, h]
  · simp [instrumentInstruction, hseg, hopc, XED_ICLASS_PUSH, XED_ICLASS_PUSHFQ,
      XED_ICLASS_POP, XED_ICLASS_POPFQ, XED_ICLASS_LEA, XED_ICLASS_CPUID,
      XED_ICLASS_RDRAND, rdrandProbes]

/-- Witness for C5: with knob value 7 the override is enabled with value 7,
a concrete `RDRAND` gets the after-probe, and the destination register is
rewritten to 7. -/
theorem C5_witness :
    ((initFixedRandomNumbers 7).useFixedRandomNumber = true ↔
      7 ≠ 0xBADBADBADBADBAD) ∧
    (7 ≠ 0xBADBADBADBADBAD → (initFixedRandomNumbers 7).fixedRandomNumber = 7) ∧
    instrumentInstruction true false insRdrand = rdrandProbes insRdrand.addr ∧
    ChangeRandomNumber 7 12345 = 7 :=
  C5_rdrand_override 7 false insRdrand 7 12345 (by decide) (by decide)

/-- **C6.** `PinNotifyTestcaseStart(id)` is hooked so that, on entry, the
current buffer is flushed (when nonempty), the current output file is
closed (its contents are archived), a fresh file named
`<stem>_t<id>.trace` is opened, the id is recorded, and the returned
pointer — placed back into the next-entry register — is `begin` (index 0);
`PinNotifyTestcaseEnd()` likewise flushes, closes the file, and returns
`begin`. -/
theorem C6_testcase_hooks (tw : TraceWriter) (id : Int) (tid : Nat) (nx : Nat) :
    (TestcaseStart tw id tid nx).2 = 0 ∧
    (TestcaseStart tw id tid nx).1.testcaseId = some id ∧
    (TestcaseStart tw id tid nx).1.currentFileName =
      tw.pathStem ++ "_t" ++ toString id ++ ".trace" ∧
    (TestcaseStart tw id tid nx).1.currentFileBytes = [] ∧
    (TestcaseStart tw id tid nx).1.closedFiles =
      tw.closedFiles ++ [(tw.currentFileName,
        tw.currentFileBytes ++ (if nx ≠ 0 then tw.slots.take nx else []))] ∧
    (TestcaseEnd tw nx tid).2 = 0 ∧
    (TestcaseEnd tw nx tid).1.testcaseId = none ∧
    (TestcaseEnd tw nx tid).1.currentFileBytes = [] ∧
    (TestcaseEnd tw nx tid).1.closedFiles =
      tw.closedFiles ++ [(tw.currentFileName,
        tw.currentFileBytes ++ (if nx ≠ 0 then tw.slots.take nx else []))] := by
  refine ⟨rfl, ?_, ?_, ?_, ?_, rfl, ?_, ?_, ?_⟩ <;>
    simp only [TestcaseStart, TestcaseEnd, TraceWriter.testcaseStart,
      TraceWriter.testcaseEnd, TraceWriter.begin, TraceWriter.writeBufferToFile] <;>
    split_ifs <;> simp

/-- **C7.** Every thread with id other than 0 is silenced at start: both
scratch registers are set to null, exactly one stderr line announces the
ignored thread, no trace writer is created; the fast-path if-probe
evaluates to false on the null next pointer, and the flush helper returns
its input state and pointer unchanged for such a thread (and for any null
pointer), so a non-main thread never contributes a trace entry. -/
theorem C7_nonmain_threads_silenced (tid : Nat) (h : tid ≠ 0) (bufferSize : Nat) :
    ThreadStart tid bufferSize =
      { stderrLines := ["Ignoring thread #" ++ toString tid]
        nextBufferEntryReg := none
        entryBufferEndReg := none
        traceWriterCreated := false } ∧
    (ThreadStart tid bufferSize).stderrLines.length = 1 ∧
    CheckNextTraceEntryPointerValid none = false ∧
    (∀ tw nextE endE, CheckBufferAndStore tw nextE endE tid = (tw, nextE)) ∧
    (∀ tw endE tid2, CheckBufferAndStore tw none endE tid2 = (tw, none)) := by
  refine ⟨?_, ?_, rfl, ?_, ?_⟩
  · simp [ThreadStart, h]
  · simp [ThreadStart, h]
  · intro tw nextE endE
    simp [CheckBufferAndStore, h]
  · intro tw endE tid2
    simp [CheckBufferAndStore]

/-- Witness for C7: thread 1 with a 16-slot buffer is silenced, and the
null pointer fails the fast-path check. -/
theorem C7_witness :
    ThreadStart 1 16 =
      { stderrLines := ["Ignoring thread #" ++ toString 1]
        nextBufferEntryReg := none
        entryBufferEndReg := none
        traceWriterCreated := false } ∧
    CheckNextTraceEntryPointerValid none = false :=
  ⟨(C7_nonmain_threads_silenced 1 (by decide) 16).1,
   (C7_nonmain_threads_silenced 1 (by decide) 16).2.2.1⟩

/-- Helper: instrumenting a concatenation of basic blocks concatenates the
stderr output and the installed probes. -/
theorem InstrumentTrace_append (u : Bool) (images : List ImageData)
    (l1 l2 : List BBL) :
    InstrumentTrace u images (l1 ++ l2) =
      ((InstrumentTrace u images l1).1 ++ (InstrumentTrace u images l2).1,
       (InstrumentTrace u images l1).2 ++ (InstrumentTrace u images l2).2) := by
  induction l1 with
  | nil => simp [InstrumentTrace]
  | cons b bs ih => simp [InstrumentTrace, ih]

/-- **C8.** A basic block contained in the `[low, high]` range
of no registered image causes one stderr error line, the block itself is skipped — no probe
of any kind is installed for its instructions — and the surrounding blocks
of the trace are instrumented exactly as if the bad block were absent: the
error is non-fatal. -/
theorem C8_unattributable_bbl_skipped (u : Bool) (images : List ImageData)
    (bbl : BBL) (h : ∀ img ∈ images, img.containsBasicBlock bbl = false)
    (l1 l2 : List BBL) :
    instrumentBasicBlock u images bbl =
      (["Error: Cannot resolve image of basic block " ++ toString bbl.addr],
       []) ∧
    (InstrumentTrace u images (l1 ++ bbl :: l2)).2 =
      (InstrumentTrace u images l1).2 ++ (InstrumentTrace u images l2).2 ∧
    ("Error: Cannot resolve image of basic block " ++ toString bbl.addr)
      ∈ (InstrumentTrace u images (l1 ++ bbl :: l2)).1 := by
  have hres : resolveImage images bbl = none := by
    apply List.find?_eq_none.mpr
    intro x hx
    simp [h x hx]
  have hbbl : instrumentBasicBlock u images bbl =
      (["Error: Cannot resolve image of basic block " ++ toString bbl.addr],
       []) := by
    simp [instrumentBasicBlock, hres]
  refine ⟨hbbl, ?_, ?_⟩
  · rw [InstrumentTrace_append]
    simp [InstrumentTrace, hbbl]
  · rw [InstrumentTrace_append]
    simp [InstrumentTrace, hbbl]

/-- A registered interesting image. -/
def imgA : ImageData :=
  { interesting := true, name := "a.exe", low := 4096, high := 8191 }

/-- A basic block outside the range of every registered image. -/
def bblOrphan : BBL :=
  { addr := 20480, inss := [] }

/-- Witness for C8: with the single registered image `imgA`, the orphan
block produces the error line and no probes, and tracing continues. -/
theorem C8_witness :
    instrumentBasicBlock false [imgA] bblOrphan =
      (["Error: Cannot resolve image of basic block " ++ toString bblOrphan.addr],
       []) ∧
    (InstrumentTrace false [imgA] ([] ++ bblOrphan :: [])).2 =
      (InstrumentTrace false [imgA] []).2 ++ (InstrumentTrace false [imgA] []).2 ∧
    ("Error: Cannot resolve image of basic block " ++ toString bblOrphan.addr)
      ∈ (InstrumentTrace false [imgA] ([] ++ bblOrphan :: [])).1 :=
  C8_unattributable_bbl_skipped false [imgA] bblOrphan (by decide) [] []

/-- A writer state in which the buffer-full check fires while the write
pointer is two slots short of the buffer end: slots 0 and 1 hold entries
written since the last reset, slots 2 and 3 have never been written. -/
def flushCexWriter : TraceWriter :=
  { pathStem := "out"
    slots := [some (.stackPointer 11), some (.stackPointer 22), none, none]
    currentFileBytes := []
    currentFileName := "out_t1.trace"
    testcaseId := some 1
    closedFiles := [] }

/-- **C1 counterexample.** A flush triggered by the buffer-full check on
the traced thread (tid 0, non-null pointers, `checkBufferFull` true with
the `K = 2` slack of the spec model) resets the returned pointer to `begin` but does
not write exactly the entries written since the last reset: the file
receives the range `[begin, end)` — here four slots — not the range
`[begin, next)` of the two entries actually written, because
`CheckBufferAndStore` passes `entryBufferEnd`, not the current write
pointer, to `WriteBufferToFile`. -/
theorem C1_counterexample :
    TraceWriter.checkBufferFull 2 4 = true ∧
    (CheckBufferAndStore flushCexWriter (some 2) (some 4) 0).2 = some 0 ∧
    (CheckBufferAndStore flushCexWriter (some 2) (some 4) 0).1.currentFileBytes ≠
      flushCexWriter.slots.take 2 := by
  decide

/-- **C1 (amended).** For every flush triggered by the buffer-full check on
the traced thread, the flush appends the byte range `[begin, end)` — the
whole buffer, which contains every entry written since the last reset
(the range `[begin, next)` is a prefix of what is written, so no entry is
lost) but may include up to `K = 2` trailing slots past the write
pointer — to the current output file, and the returned pointer is reset to
`begin`. -/
theorem C1_flush_writes_whole_buffer (tw : TraceWriter) (nx en : Nat)
    (hfull : TraceWriter.checkBufferFull nx en = true) (hle : nx ≤ en) :
    CheckBufferAndStore tw (some nx) (some en) 0 =
      ({ tw with currentFileBytes := tw.currentFileBytes ++ tw.slots.take en },
       some 0) ∧
    tw.slots.take nx ++ (tw.slots.take en).drop nx = tw.slots.take en := by
  constructor
  · simp [CheckBufferAndStore, hfull, TraceWriter.writeBufferToFile,
      TraceWriter.begin]
  · conv_rhs => rw [← List.take_append_drop nx (tw.slots.take en)]
    rw [List.take_take, Nat.min_eq_left hle]

/-- Witness for C1 (amended): at the concrete state, the flush writes the
whole four-slot buffer, the two real entries form a prefix of it, and the
pointer returns to `begin`. -/
theorem C1_witness :
    (CheckBufferAndStore flushCexWriter (some 2) (some 4) 0 =
      ({ flushCexWriter with currentFileBytes :=
          flushCexWriter.currentFileBytes ++ flushCexWriter.slots.take 4 },
       some 0) ∧
     flushCexWriter.slots.take 2 ++ (flushCexWriter.slots.take 4).drop 2 =
       flushCexWriter.slots.take 4) :=
  C1_flush_writes_whole_buffer flushCexWriter 2 4 (by decide) (by decide)

end PinTracer
